import Mathlib

/-!
Shallow embedding of the ACDN configuration / logging bootstrap:
  * src/srccoreconfig.py        (ExchangeType, ExchangeConfig, TradingConfig,
                                 MLConfig, Config and its methods)
  * src/srccorelogging_setup.py (FirestoreLogHandler)

Modelling conventions:
  * The process environment (os.environ) is an association list from variable
    name to value; an absent variable is a missing key, `os.getenv` is lookup.
  * Python string truthiness: `None` and the empty string are falsy.
  * `logging.warning` calls are collected into a returned list of message
    strings; a function that returns normally models code that does not raise.
  * Filesystem paths are lists of path components relative to the project base
    directory (`Path(__file__).parent.parent.parent` in the source); the
    filesystem is the list of directories that exist, and `Path.mkdir` with
    `parents=True, exist_ok=True` adds every missing ancestor and the directory
    itself, treating pre-existing directories as success.
  * Decimal literals of the Python source are modelled as exact rationals.
-/

namespace ACDN

/-- `class ExchangeType(Enum)` from src/srccoreconfig.py. -/
inductive ExchangeType
  | CRYPTO
  | STOCK
  | FOREX
  | DERIVATIVES
deriving DecidableEq, Repr

/-- `@dataclass class ExchangeConfig` from src/srccoreconfig.py. -/
structure ExchangeConfig where
  name : String
  type : ExchangeType
  api_key_env : String
  api_secret_env : String
  rate_limit : Nat := 10
  timeout : Nat := 30
  enabled : Bool := true
deriving DecidableEq, Repr

/-- `@dataclass class TradingConfig` from src/srccoreconfig.py. -/
structure TradingConfig where
  max_position_size_usd : ℚ := 10000
  max_daily_loss_pct : ℚ := 2
  stop_loss_pct : ℚ := 1
  take_profit_pct : ℚ := 2
  correlation_threshold : ℚ := 7/10
  volatility_threshold : ℚ := 3/20
deriving DecidableEq

/-- `@dataclass class MLConfig` from src/srccoreconfig.py. -/
structure MLConfig where
  model_checkpoint_dir : String := "models/checkpoints"
  training_batch_size : Nat := 64
  prediction_batch_size : Nat := 32
  sequence_length : Nat := 100
  feature_count : Nat := 50
deriving DecidableEq

/-- The process environment: association list from variable name to value. -/
abbrev Env := List (String × String)

/-- `os.getenv(k)`: the variable's value, or `none` when unset. -/
def getenv (e : Env) (k : String) : Option String :=
  e.lookup k

/-- `os.getenv(k, d)`: the variable's value when set (even when empty),
otherwise the default `d`. -/
def getenvD (e : Env) (k d : String) : String :=
  (getenv e k).getD d

/-- Python truthiness of `os.getenv(k)`: false when the variable is unset
(`None`) or set to the empty string. -/
def envTruthy (e : Env) (k : String) : Bool :=
  match getenv e k with
  | none => false
  | some s => s != ""

/-- Python `x or y` for an optional string `x`: `x` when truthy (present and
non-empty), else `y`.  Mirrors `env or os.getenv("ACDN_ENV", "development")`. -/
def pyOrStr (a : Option String) (b : String) : String :=
  match a with
  | some s => if s != "" then s else b
  | none => b

/-- The message of `logging.warning(f"API key not set for {exchange_name}. Disabling.")`. -/
def apiKeyWarning (n : String) : String :=
  "API key not set for " ++ n ++ ". Disabling."

/-- The message of `logging.warning(f"API secret not set for {exchange_name}. Disabling.")`. -/
def apiSecretWarning (n : String) : String :=
  "API secret not set for " ++ n ++ ". Disabling."

/-- The message of `logging.warning("Firebase credentials path not set. ...")`. -/
def firebaseWarning : String :=
  "Firebase credentials path not set. Firestore will be unavailable."

/-- A filesystem path, as components relative to the project base directory. -/
abbrev DirPath := List String

/-- The filesystem: the list of directories that currently exist. -/
abbrev FS := List DirPath

/-- `Config._load_exchange_configs` from src/srccoreconfig.py: the fixed
three-entry mapping, in insertion order (crypto exchanges first, then stock).
`rate_limit` is given explicitly per entry; `timeout` and `enabled` take the
dataclass defaults (30, true). -/
def load_exchange_configs : List ExchangeConfig :=
  [ { name := "binance", type := ExchangeType.CRYPTO,
      api_key_env := "BINANCE_API_KEY", api_secret_env := "BINANCE_API_SECRET",
      rate_limit := 20 },
    { name := "coinbase", type := ExchangeType.CRYPTO,
      api_key_env := "COINBASE_API_KEY", api_secret_env := "COINBASE_API_SECRET",
      rate_limit := 15 },
    { name := "alpaca", type := ExchangeType.STOCK,
      api_key_env := "ALPACA_API_KEY", api_secret_env := "ALPACA_API_SECRET",
      rate_limit := 200 } ]

/-- The per-exchange body of `Config._validate`: when the exchange is enabled,
check `os.getenv(api_key_env)` and then `os.getenv(api_secret_env)`; each
missing (unset or empty) credential emits a warning and sets `enabled = False`.
The two checks run sequentially, both under the single `if config.enabled:`
guard, exactly as in the source.  Returns the updated config and the warnings
emitted. -/
def validateExchange (e : Env) (c : ExchangeConfig) : ExchangeConfig × List String :=
  if c.enabled then
    let p1 : ExchangeConfig × List String :=
      if !(envTruthy e c.api_key_env) then
        ({ c with enabled := false }, [apiKeyWarning c.name])
      else (c, [])
    if !(envTruthy e c.api_secret_env) then
      ({ p1.1 with enabled := false }, p1.2 ++ [apiSecretWarning c.name])
    else (p1.1, p1.2)
  else (c, [])

/-- `Config._validate` from src/srccoreconfig.py, functionalized: warn when the
firebase credentials path is falsy (empty string), then run the per-exchange
credential check over the mapping in order.  Returns the updated exchange list
and all warnings emitted, in order. -/
def validate (e : Env) (firebase_credentials_path : String)
    (exchanges : List ExchangeConfig) : List ExchangeConfig × List String :=
  let fbWarns := if firebase_credentials_path == "" then [firebaseWarning] else []
  let results := exchanges.map (validateExchange e)
  (results.map Prod.fst, fbWarns ++ (results.map Prod.snd).flatten)

/-- `mkdir` of a single directory with `exist_ok=True`: a pre-existing
directory is left alone (and is not an error); otherwise the directory is
added. -/
def mkdirOne (fs : FS) (q : DirPath) : FS :=
  if q ∈ fs then fs else fs ++ [q]

/-- The chain of ancestor directories of `p` ending with `p` itself, shortest
first (what `parents=True` must ensure exists). -/
def ancestors (p : DirPath) : List DirPath :=
  (List.range p.length).map fun i => p.take (i + 1)

/-- `Path.mkdir(exist_ok=True, parents=True)`: create every missing ancestor,
then the directory itself; never fails on pre-existing directories. -/
def mkdirParents (fs : FS) (p : DirPath) : FS :=
  (ancestors p).foldl mkdirOne fs

/-- `Config._setup_directories` from src/srccoreconfig.py: mkdir each directory
of the list `[data_dir, logs_dir, models_dir]` in order. -/
def setup_directories (fs : FS) (dirs : List DirPath) : FS :=
  dirs.foldl mkdirParents fs

/-- `class Config` from src/srccoreconfig.py: the fields assigned by
`__init__`.  The three directory paths are relative to the base directory. -/
structure Config where
  env : String
  log_level : String
  data_dir : DirPath
  logs_dir : DirPath
  models_dir : DirPath
  trading : TradingConfig
  ml : MLConfig
  exchanges : List ExchangeConfig
  firebase_credentials_path : String
deriving DecidableEq

/-- `Config.__init__` from src/srccoreconfig.py: the whole construction
sequence, over an explicit optional `env` argument, the process environment and
the current filesystem.  Returns the constructed `Config`, the warnings emitted
during `_validate`, and the filesystem after `_setup_directories`. -/
def mkConfig (envArg : Option String) (e : Env) (fs : FS) :
    Config × List String × FS :=
  let env := pyOrStr envArg (getenvD e "ACDN_ENV" "development")
  let log_level := getenvD e "LOG_LEVEL" "INFO"
  let data_dir : DirPath := ["data"]
  let logs_dir : DirPath := ["logs"]
  let models_dir : DirPath := ["models"]
  let trading : TradingConfig := {}
  let ml : MLConfig := {}
  let exchanges := load_exchange_configs
  let firebase_credentials_path := getenvD e "FIREBASE_CREDENTIALS_PATH" ""
  let v := validate e firebase_credentials_path exchanges
  let fs1 := setup_directories fs [data_dir, logs_dir, models_dir]
  ({ env := env, log_level := log_level, data_dir := data_dir,
     logs_dir := logs_dir, models_dir := models_dir, trading := trading,
     ml := ml, exchanges := v.1,
     firebase_credentials_path := firebase_credentials_path }, v.2, fs1)

/-- `Config._validate` as a method on an already-built `Config` (state-passing
rendering: it reassigns only `self.exchanges`' `enabled` flags and returns the
warnings emitted). -/
def validateConfig (e : Env) (c : Config) : Config × List String :=
  let v := validate e c.firebase_credentials_path c.exchanges
  ({ c with exchanges := v.1 }, v.2)

/-- `Config.get_enabled_exchanges` from src/srccoreconfig.py, in state-passing
rendering: the method body is a single list comprehension with no assignment,
so the state component is the receiver unchanged. -/
def get_enabled_exchanges (c : Config) : List ExchangeConfig × Config :=
  (c.exchanges.filter fun x => x.enabled, c)

/-- `class FirestoreLogHandler` from src/srccorelogging_setup.py, over an
abstract record type `α`.  The external-store client is opaque: only its
presence matters, so it is modelled as `Option Unit`.  `sent_batches` is ghost
instrumentation recording every batch write performed against the external
store, so transmissions are observable in the model. -/
structure FirestoreLogHandler (α : Type) where
  firestore_client : Option Unit
  batch_size : Nat
  buffer : List α
  sent_batches : List (List α)

/-- `FirestoreLogHandler.__init__` from src/srccorelogging_setup.py:
`self.firestore_client = firestore_client`, `self.batch_size = 100`,
`self._buffer = []`. -/
def FirestoreLogHandler.init (α : Type) (client : Option Unit) :
    FirestoreLogHandler α :=
  { firestore_client := client, batch_size := 100, buffer := [],
    sent_batches := [] }

/-- Modelled from the spec: the body of `FirestoreLogHandler` flushing is
missing from src/srccorelogging_setup.py (the file is truncated inside
`emit`'s docstring).  Per spec §4.2, a flush transmits the buffered records as
one batch write to the external store and clears the buffer; when the store
handle is absent the handler degrades to a no-op / local-buffer-only mode and
never crashes. -/
def FirestoreLogHandler.flush (h : FirestoreLogHandler α) :
    FirestoreLogHandler α :=
  match h.firestore_client with
  | some _ => { h with buffer := [], sent_batches := h.sent_batches ++ [h.buffer] }
  | none => h

/-- Modelled from the spec: the body of `FirestoreLogHandler.emit` is missing
from src/srccorelogging_setup.py (the file is truncated inside its docstring).
Per spec §4.2: append the incoming record to the internal buffer; if the
buffer's length reaches the configured batch size, flush. -/
def FirestoreLogHandler.emit (h : FirestoreLogHandler α) (r : α) :
    FirestoreLogHandler α :=
  let h1 := { h with buffer := h.buffer ++ [r] }
  if h.batch_size ≤ h1.buffer.length then h1.flush else h1

/-- Emitting a sequence of records, one at a time, in order. -/
def FirestoreLogHandler.emitAll (h : FirestoreLogHandler α) (rs : List α) :
    FirestoreLogHandler α :=
  rs.foldl FirestoreLogHandler.emit h

/-! ### Helper lemmas about the per-exchange validation pass -/

@[simp]
theorem validateExchange_name (e : Env) (c : ExchangeConfig) :
    (validateExchange e c).1.name = c.name := by
  unfold validateExchange
  split_ifs <;> simp

@[simp]
theorem validateExchange_type (e : Env) (c : ExchangeConfig) :
    (validateExchange e c).1.type = c.type := by
  unfold validateExchange
  split_ifs <;> simp

@[simp]
theorem validateExchange_api_key_env (e : Env) (c : ExchangeConfig) :
    (validateExchange e c).1.api_key_env = c.api_key_env := by
  unfold validateExchange
  split_ifs <;> simp

@[simp]
theorem validateExchange_api_secret_env (e : Env) (c : ExchangeConfig) :
    (validateExchange e c).1.api_secret_env = c.api_secret_env := by
  unfold validateExchange
  split_ifs <;> simp

@[simp]
theorem validateExchange_rate_limit (e : Env) (c : ExchangeConfig) :
    (validateExchange e c).1.rate_limit = c.rate_limit := by
  unfold validateExchange
  split_ifs <;> simp

@[simp]
theorem validateExchange_timeout (e : Env) (c : ExchangeConfig) :
    (validateExchange e c).1.timeout = c.timeout := by
  unfold validateExchange
  split_ifs <;> simp

/-- On an exchange that is enabled going in (as all three are at construction),
the validation pass leaves it enabled exactly when both credential variables
are present and non-empty. -/
theorem validateExchange_enabled_iff (e : Env) (c : ExchangeConfig)
    (h : c.enabled = true) :
    ((validateExchange e c).1.enabled = true ↔
      envTruthy e c.api_key_env = true ∧ envTruthy e c.api_secret_env = true) := by
  unfold validateExchange
  cases hk : envTruthy e c.api_key_env <;> cases hs : envTruthy e c.api_secret_env <;>
    simp [h, hk, hs]

/-- A missing API key produces its warning in the per-exchange warning list. -/
theorem validateExchange_key_warning (e : Env) (c : ExchangeConfig)
    (h : c.enabled = true) (hk : envTruthy e c.api_key_env = false) :
    apiKeyWarning c.name ∈ (validateExchange e c).2 := by
  unfold validateExchange
  cases hs : envTruthy e c.api_secret_env <;> simp [h, hk, hs]

/-- A missing API secret produces its warning in the per-exchange warning list. -/
theorem validateExchange_secret_warning (e : Env) (c : ExchangeConfig)
    (h : c.enabled = true) (hs : envTruthy e c.api_secret_env = false) :
    apiSecretWarning c.name ∈ (validateExchange e c).2 := by
  unfold validateExchange
  cases hk : envTruthy e c.api_key_env <;> simp [h, hk, hs]

/-- A disabled exchange is left completely untouched by the validation pass. -/
theorem validateExchange_disabled_fixed (e : Env) (c : ExchangeConfig)
    (h : c.enabled = false) : validateExchange e c = (c, []) := by
  rw [validateExchange, h]
  simp

/-- The validation pass never turns a disabled exchange back on. -/
theorem validateExchange_enabled_mono (e : Env) (c : ExchangeConfig)
    (h : (validateExchange e c).1.enabled = true) : c.enabled = true := by
  cases hc : c.enabled with
  | true => rfl
  | false =>
    rw [validateExchange_disabled_fixed e c hc] at h
    rw [← hc]
    exact h

/-- Every exchange of the fixed mapping starts out enabled. -/
theorem load_exchange_configs_enabled (c : ExchangeConfig)
    (h : c ∈ load_exchange_configs) : c.enabled = true := by
  fin_cases h <;> rfl

/-- The exchange list of a constructed `Config` is the fixed mapping with the
validation pass applied entrywise, in order. -/
theorem mkConfig_exchanges (envArg : Option String) (e : Env) (fs : FS) :
    (mkConfig envArg e fs).1.exchanges =
      load_exchange_configs.map fun c => (validateExchange e c).1 := by
  simp [mkConfig, validate, List.map_map]

/-- Any warning produced when validating a member of the fixed mapping appears
among the warnings of the whole construction. -/
theorem mem_mkConfig_warns (envArg : Option String) (e : Env) (fs : FS)
    (c : ExchangeConfig) (hc : c ∈ load_exchange_configs) (w : String)
    (hw : w ∈ (validateExchange e c).2) : w ∈ (mkConfig envArg e fs).2.1 := by
  simp only [mkConfig, validate]
  refine List.mem_append_right _ ?_
  exact List.mem_flatten.mpr ⟨(validateExchange e c).2,
    List.mem_map_of_mem _ (List.mem_map_of_mem _ hc), hw⟩

/-! ### Helper lemmas about the buffered log handler -/

theorem emit_below {α : Type} (h : FirestoreLogHandler α) (r : α)
    (hlt : h.buffer.length + 1 < h.batch_size) :
    h.emit r = { h with buffer := h.buffer ++ [r] } := by
  unfold FirestoreLogHandler.emit
  simp
  intro hle
  exact absurd hle (by omega)

/-- Emitting a batch that stays strictly below the batch size only appends to
the buffer; nothing is transmitted and no other field changes. -/
theorem emitAll_below {α : Type} (rs : List α) :
    ∀ h : FirestoreLogHandler α, h.buffer.length + rs.length < h.batch_size →
      h.emitAll rs = { h with buffer := h.buffer ++ rs } := by
  induction rs with
  | nil =>
    intro h _
    show h = { h with buffer := h.buffer ++ [] }
    simp
  | cons r rest ih =>
    intro h hlt
    simp at hlt
    have h1 : h.emit r = { h with buffer := h.buffer ++ [r] } := by
      apply emit_below
      omega
    have h2 := ih ({ h with buffer := h.buffer ++ [r] }) (by simp; omega)
    show (h.emit r).emitAll rest = _
    rw [h1, h2]
    simp

/-- With the store handle present, emitting records that bring the buffer
exactly to the batch size performs exactly one batch transmission of the whole
buffer and empties it. -/
theorem emitAll_reach {α : Type} (rs : List α) :
    ∀ h : FirestoreLogHandler α, h.firestore_client = some () → rs ≠ [] →
      h.buffer.length + rs.length = h.batch_size →
      h.emitAll rs = { h with buffer := [],
                              sent_batches := h.sent_batches ++ [h.buffer ++ rs] } := by
  induction rs with
  | nil =>
    intro h _ hne _
    exact absurd rfl hne
  | cons r rest ih =>
    intro h hcl hne heq
    by_cases hrest : rest = []
    · subst hrest
      have hc : h.batch_size ≤ (h.buffer ++ [r]).length := by
        simp at heq ⊢
        omega
      show h.emit r = _
      unfold FirestoreLogHandler.emit FirestoreLogHandler.flush
      simp [hc, hcl]
      simp at hc
      exact hc
    · have hlen : rest.length ≠ 0 := fun h0 => hrest (List.length_eq_zero.mp h0)
      simp at heq
      have h1 : h.emit r = { h with buffer := h.buffer ++ [r] } := by
        apply emit_below
        omega
      have h2 := ih ({ h with buffer := h.buffer ++ [r] }) (by exact hcl) hrest
        (by simp; omega)
      show (h.emit r).emitAll rest = _
      rw [h1, h2]
      simp

theorem emit_none {α : Type} (h : FirestoreLogHandler α) (r : α)
    (hcl : h.firestore_client = none) :
    h.emit r = { h with buffer := h.buffer ++ [r] } := by
  unfold FirestoreLogHandler.emit FirestoreLogHandler.flush
  simp [hcl]

/-- Without a store handle, emitting only ever appends to the buffer: nothing
is transmitted, and every emission returns normally. -/
theorem emitAll_none {α : Type} (rs : List α) :
    ∀ h : FirestoreLogHandler α, h.firestore_client = none →
      h.emitAll rs = { h with buffer := h.buffer ++ rs } := by
  induction rs with
  | nil =>
    intro h _
    show h = { h with buffer := h.buffer ++ [] }
    simp
  | cons r rest ih =>
    intro h hcl
    have h2 := ih ({ h with buffer := h.buffer ++ [r] }) (by exact hcl)
    show (h.emit r).emitAll rest = _
    rw [emit_none h r hcl, h2]
    simp

/-! ### Helper lemmas about directory provisioning -/

theorem mem_mkdirOne (fs : FS) (q x : DirPath) :
    x ∈ mkdirOne fs q ↔ x ∈ fs ∨ x = q := by
  unfold mkdirOne
  split_ifs with hq
  · constructor
    · exact Or.inl
    · rintro (hx | rfl)
      · exact hx
      · exact hq
  · simp

theorem mkdirOne_of_mem (fs : FS) (q : DirPath) (h : q ∈ fs) :
    mkdirOne fs q = fs := by
  unfold mkdirOne
  simp [h]

theorem mkdirOne_mem_self (fs : FS) (q : DirPath) : q ∈ mkdirOne fs q := by
  rw [mem_mkdirOne]
  exact Or.inr rfl

theorem mkdirParents_singleton (fs : FS) (s : String) :
    mkdirParents fs [s] = mkdirOne fs [s] := rfl

theorem setup_directories_three (fs : FS) (d1 d2 d3 : String) :
    setup_directories fs [[d1], [d2], [d3]] =
      mkdirOne (mkdirOne (mkdirOne fs [d1]) [d2]) [d3] := rfl

/-- The filesystem after `Config.__init__`, written out: mkdir of `data/`,
`logs/`, `models/`, in order. -/
theorem mkConfig_fs (envArg : Option String) (e : Env) (fs : FS) :
    (mkConfig envArg e fs).2.2 =
      mkdirOne (mkdirOne (mkdirOne fs ["data"]) ["logs"]) ["models"] := rfl

/-! ### Concrete fixtures used by witnesses -/

/-- A concrete environment giving binance both credentials (the spec §8
example scenario). -/
def envBinanceOnly : Env := [("BINANCE_API_KEY", "abc"), ("BINANCE_API_SECRET", "xyz")]

/-- The binance entry of the fixed mapping, with the dataclass defaults
spelled out. -/
def cBinance : ExchangeConfig :=
  { name := "binance", type := ExchangeType.CRYPTO,
    api_key_env := "BINANCE_API_KEY", api_secret_env := "BINANCE_API_SECRET",
    rate_limit := 20, timeout := 30, enabled := true }

/-- Describes agreement of two exchange configurations on every field except
`enabled`. -/
def agreesExceptEnabled (a b : ExchangeConfig) : Prop :=
  a.name = b.name ∧ a.type = b.type ∧ a.api_key_env = b.api_key_env ∧
  a.api_secret_env = b.api_secret_env ∧ a.rate_limit = b.rate_limit ∧
  a.timeout = b.timeout

/-! ### Claim theorems -/

/-- Claim C1: after Config construction, every exchange of the mapping is
enabled iff both of its credential environment variables resolved to non-empty
values; whenever a credential is absent or empty, the exchange ends up
disabled and a warning naming it is emitted.  Construction is a total
function, so it never raises. -/
theorem C1_exchange_enabled_iff_credentials (envArg : Option String) (e : Env)
    (fs : FS) (c : ExchangeConfig)
    (hc : c ∈ (mkConfig envArg e fs).1.exchanges) :
    (c.enabled = true ↔
      envTruthy e c.api_key_env = true ∧ envTruthy e c.api_secret_env = true) ∧
    (envTruthy e c.api_key_env = false →
      apiKeyWarning c.name ∈ (mkConfig envArg e fs).2.1) ∧
    (envTruthy e c.api_secret_env = false →
      apiSecretWarning c.name ∈ (mkConfig envArg e fs).2.1) := by
  rw [mkConfig_exchanges] at hc
  obtain ⟨c₀, hc₀, rfl⟩ := List.mem_map.mp hc
  have h₀ : c₀.enabled = true := load_exchange_configs_enabled c₀ hc₀
  refine ⟨?_, ?_, ?_⟩
  · rw [validateExchange_api_key_env, validateExchange_api_secret_env]
    exact validateExchange_enabled_iff e c₀ h₀
  · rw [validateExchange_api_key_env, validateExchange_name]
    intro hk
    exact mem_mkConfig_warns envArg e fs c₀ hc₀ _
      (validateExchange_key_warning e c₀ h₀ hk)
  · rw [validateExchange_api_secret_env, validateExchange_name]
    intro hs
    exact mem_mkConfig_warns envArg e fs c₀ hc₀ _
      (validateExchange_secret_warning e c₀ h₀ hs)

/-- Witness for C1 at the spec's example scenario: binance fully
credentialed. -/
theorem C1_exchange_enabled_iff_credentials_witness :
    cBinance ∈ (mkConfig none envBinanceOnly []).1.exchanges ∧
    ((cBinance.enabled = true ↔
       envTruthy envBinanceOnly cBinance.api_key_env = true ∧
       envTruthy envBinanceOnly cBinance.api_secret_env = true) ∧
     (envTruthy envBinanceOnly cBinance.api_key_env = false →
       apiKeyWarning cBinance.name ∈ (mkConfig none envBinanceOnly []).2.1) ∧
     (envTruthy envBinanceOnly cBinance.api_secret_env = false →
       apiSecretWarning cBinance.name ∈ (mkConfig none envBinanceOnly []).2.1)) :=
  ⟨by decide,
   C1_exchange_enabled_iff_credentials none envBinanceOnly [] cBinance (by decide)⟩

/-- Claim C2: `get_enabled_exchanges` returns exactly the enabled subset of
the exchange mapping, in insertion order (the result is a sublist of the
mapping), with no side effects: the receiver comes back unchanged, and a
second call on that unchanged state returns the identical result. -/
theorem C2_get_enabled_exchanges_pure (c : Config) :
    (get_enabled_exchanges c).2 = c ∧
    List.Sublist (get_enabled_exchanges c).1 c.exchanges ∧
    (∀ x : ExchangeConfig,
      x ∈ (get_enabled_exchanges c).1 ↔ x ∈ c.exchanges ∧ x.enabled = true) ∧
    (get_enabled_exchanges (get_enabled_exchanges c).2).1 =
      (get_enabled_exchanges c).1 := by
  refine ⟨rfl, List.filter_sublist _, ?_, rfl⟩
  intro x
  simp [get_enabled_exchanges, List.mem_filter]

/-- Claim C3: with the external-store handle present, emitting fewer than
`batch_size` records (100 per `__init__`) appends them to the buffer in order
and transmits nothing; emitting exactly `batch_size` records triggers exactly
one batch transmission of all buffered records and leaves the buffer empty. -/
theorem C3_batching (α : Type) (rs : List α) :
    (rs.length < 100 →
      ((FirestoreLogHandler.init α (some ())).emitAll rs).buffer = rs ∧
      ((FirestoreLogHandler.init α (some ())).emitAll rs).sent_batches = []) ∧
    (rs.length = 100 →
      ((FirestoreLogHandler.init α (some ())).emitAll rs).buffer = [] ∧
      ((FirestoreLogHandler.init α (some ())).emitAll rs).sent_batches = [rs]) := by
  constructor
  · intro hlt
    rw [emitAll_below rs (FirestoreLogHandler.init α (some ()))
      (by simp [FirestoreLogHandler.init]; omega)]
    exact ⟨rfl, rfl⟩
  · intro heq
    have hne : rs ≠ [] := by
      intro h0
      rw [h0] at heq
      simp at heq
    rw [emitAll_reach rs (FirestoreLogHandler.init α (some ())) rfl hne
      (by simp [FirestoreLogHandler.init]; omega)]
    exact ⟨rfl, rfl⟩

/-- Witness for C3: three records stay buffered; one hundred records flush as
one batch. -/
theorem C3_batching_witness :
    (List.range 3).length < 100 ∧ (List.range 100).length = 100 ∧
    ((FirestoreLogHandler.init ℕ (some ())).emitAll (List.range 3)).buffer =
      List.range 3 ∧
    ((FirestoreLogHandler.init ℕ (some ())).emitAll (List.range 3)).sent_batches = [] ∧
    ((FirestoreLogHandler.init ℕ (some ())).emitAll (List.range 100)).buffer = [] ∧
    ((FirestoreLogHandler.init ℕ (some ())).emitAll (List.range 100)).sent_batches =
      [List.range 100] := by
  refine ⟨by decide, by decide, ?_, ?_, ?_, ?_⟩
  · exact ((C3_batching ℕ (List.range 3)).1 (by decide)).1
  · exact ((C3_batching ℕ (List.range 3)).1 (by decide)).2
  · exact ((C3_batching ℕ (List.range 100)).2 (by decide)).1
  · exact ((C3_batching ℕ (List.range 100)).2 (by decide)).2

/-- Claim C4 counterexample: on an empty filesystem, construction does not
create `models/checkpoints/` — `_setup_directories` only mkdirs `data_dir`,
`logs_dir` and `models_dir`; the checkpoint path exists only as the string
`MLConfig.model_checkpoint_dir`. -/
theorem C4_counterexample :
    ¬ (["models", "checkpoints"] ∈ (mkConfig none [] []).2.2) := by
  decide

/-- Claim C4 (amended): Config construction provisions exactly the three
directories `data/`, `logs/` and `models/` under the project base directory
(not `models/checkpoints/`), creating any missing parents, and provisioning is
idempotent: constructing again on the resulting filesystem changes nothing and
never fails because a directory already exists. -/
theorem C4_directories (envArg : Option String) (e : Env) (fs : FS) :
    ["data"] ∈ (mkConfig envArg e fs).2.2 ∧
    ["logs"] ∈ (mkConfig envArg e fs).2.2 ∧
    ["models"] ∈ (mkConfig envArg e fs).2.2 ∧
    (∀ q : DirPath, q ∈ (mkConfig envArg e fs).2.2 →
      q ∈ fs ∨ q = ["data"] ∨ q = ["logs"] ∨ q = ["models"]) ∧
    (mkConfig envArg e (mkConfig envArg e fs).2.2).2.2 =
      (mkConfig envArg e fs).2.2 := by
  simp only [mkConfig_fs]
  have hd : ["data"] ∈ mkdirOne (mkdirOne (mkdirOne fs ["data"]) ["logs"]) ["models"] := by
    simp [mem_mkdirOne]
  have hl : ["logs"] ∈ mkdirOne (mkdirOne (mkdirOne fs ["data"]) ["logs"]) ["models"] := by
    simp [mem_mkdirOne]
  have hm : ["models"] ∈ mkdirOne (mkdirOne (mkdirOne fs ["data"]) ["logs"]) ["models"] :=
    mkdirOne_mem_self _ _
  refine ⟨hd, hl, hm, ?_, ?_⟩
  · intro q hq
    simp [mem_mkdirOne] at hq
    tauto
  · rw [mkdirOne_of_mem _ _ hd, mkdirOne_of_mem _ _ hl, mkdirOne_of_mem _ _ hm]

/-- Witness for C4 on the empty filesystem. -/
theorem C4_directories_witness :
    ["data"] ∈ (mkConfig none [] []).2.2 ∧
    ["logs"] ∈ (mkConfig none [] []).2.2 ∧
    ["models"] ∈ (mkConfig none [] []).2.2 ∧
    (∀ q : DirPath, q ∈ (mkConfig none [] []).2.2 →
      q ∈ ([] : FS) ∨ q = ["data"] ∨ q = ["logs"] ∨ q = ["models"]) ∧
    (mkConfig none [] (mkConfig none [] []).2.2).2.2 = (mkConfig none [] []).2.2 :=
  C4_directories none [] []

/-- Claim C5 counterexample: with the explicit deployment-name argument given
as the empty string and `ACDN_ENV` unset, the code resolves `env` to
"development" instead of the given argument — `env or os.getenv(...)` treats a
falsy explicit argument as absent. -/
theorem C5_counterexample :
    (mkConfig (some "") [] []).1.env = "development" ∧
    (mkConfig (some "") [] []).1.env ≠ "" :=
  ⟨rfl, by decide⟩

/-- Claim C5 (amended): Config's `env` field is the explicit deployment-name
argument when a non-empty one is given (an explicitly passed empty string is
treated as absent, by Python truthiness); otherwise the value of `ACDN_ENV`
when that variable is set; otherwise the literal "development". -/
theorem C5_env_resolution (envArg : Option String) (e : Env) (fs : FS) :
    (∀ s : String, envArg = some s → s ≠ "" → (mkConfig envArg e fs).1.env = s) ∧
    ((envArg = none ∨ envArg = some "") →
      (∀ v : String, getenv e "ACDN_ENV" = some v →
        (mkConfig envArg e fs).1.env = v) ∧
      (getenv e "ACDN_ENV" = none →
        (mkConfig envArg e fs).1.env = "development")) := by
  have henv : (mkConfig envArg e fs).1.env =
      pyOrStr envArg (getenvD e "ACDN_ENV" "development") := rfl
  constructor
  · rintro s rfl hs
    rw [henv]
    simp [pyOrStr, bne_iff_ne, hs]
  · rintro (rfl | rfl) <;> constructor
    · intro v hv
      rw [henv]
      simp [pyOrStr, getenvD, hv]
    · intro hv
      rw [henv]
      simp [pyOrStr, getenvD, hv]
    · intro v hv
      rw [henv]
      simp [pyOrStr, getenvD, hv]
    · intro hv
      rw [henv]
      simp [pyOrStr, getenvD, hv]

/-- Witness for C5: an explicit non-empty argument wins. -/
theorem C5_env_resolution_witness :
    (some "prod" : Option String) = some "prod" ∧ "prod" ≠ "" ∧
    (mkConfig (some "prod") [] []).1.env = "prod" :=
  ⟨rfl, by decide, (C5_env_resolution (some "prod") [] []).1 "prod" rfl (by decide)⟩

/-- Claim C6: the enabled flag only ever moves downward, at most once: the
validation pass never re-enables an exchange (a true result implies it was
true before), an already-disabled exchange is left completely untouched, and
the only other operation, `get_enabled_exchanges`, leaves the Config — hence
every enabled flag — unchanged. -/
theorem C6_enabled_downward_once (e : Env) (c : ExchangeConfig) (cfg : Config) :
    ((validateExchange e c).1.enabled = true → c.enabled = true) ∧
    (c.enabled = false → validateExchange e c = (c, [])) ∧
    (get_enabled_exchanges cfg).2 = cfg :=
  ⟨validateExchange_enabled_mono e c, validateExchange_disabled_fixed e c, rfl⟩

/-- Witness for C6: a fully-credentialed exchange stays enabled, and it was
enabled before validation. -/
theorem C6_enabled_downward_once_witness :
    (validateExchange envBinanceOnly cBinance).1.enabled = true ∧
    cBinance.enabled = true :=
  ⟨by decide,
   (C6_enabled_downward_once envBinanceOnly cBinance (mkConfig none [] []).1).1
     (by decide)⟩

/-- Claim C7: with the external-store handle absent, emitting any sequence of
records never attempts a transmission (the records just accumulate in the
local buffer) and never raises: emission is a total function returning
normally on every record. -/
theorem C7_no_client_no_transmission (α : Type) (rs : List α) :
    ((FirestoreLogHandler.init α none).emitAll rs).sent_batches = [] ∧
    ((FirestoreLogHandler.init α none).emitAll rs).buffer = rs := by
  rw [emitAll_none rs (FirestoreLogHandler.init α none) rfl]
  exact ⟨rfl, rfl⟩

/-- Claim C8: with `FIREBASE_CREDENTIALS_PATH` unset or empty, construction
still succeeds (it is a total function), the `firebase_credentials_path` field
is the empty string, and the warning that Firestore will be unavailable is
emitted. -/
theorem C8_firebase_empty_ok (envArg : Option String) (e : Env) (fs : FS)
    (h : getenv e "FIREBASE_CREDENTIALS_PATH" = none ∨
         getenv e "FIREBASE_CREDENTIALS_PATH" = some "") :
    (mkConfig envArg e fs).1.firebase_credentials_path = "" ∧
    firebaseWarning ∈ (mkConfig envArg e fs).2.1 := by
  have hempty : getenvD e "FIREBASE_CREDENTIALS_PATH" "" = "" := by
    rcases h with h | h <;> simp [getenvD, h]
  refine ⟨hempty, ?_⟩
  show firebaseWarning ∈
    (validate e (getenvD e "FIREBASE_CREDENTIALS_PATH" "") load_exchange_configs).2
  rw [hempty]
  simp [validate]

/-- Witness for C8 in the empty environment. -/
theorem C8_firebase_empty_ok_witness :
    (getenv [] "FIREBASE_CREDENTIALS_PATH" = none ∨
     getenv [] "FIREBASE_CREDENTIALS_PATH" = some "") ∧
    ((mkConfig none [] []).1.firebase_credentials_path = "" ∧
     firebaseWarning ∈ (mkConfig none [] []).2.1) :=
  ⟨Or.inl rfl, C8_firebase_empty_ok none [] [] (Or.inl rfl)⟩

/-- Claim C9: regardless of the environment and of the explicit argument, the
exchange mapping of a constructed Config has exactly three entries, keyed and
ordered binance, coinbase, alpaca, with the fixed types, credential variable
names and rate limits of the source. -/
theorem C9_fixed_exchange_mapping (envArg : Option String) (e : Env) (fs : FS) :
    ((mkConfig envArg e fs).1.exchanges).map
        (fun c => (c.name, c.type, c.api_key_env, c.api_secret_env, c.rate_limit)) =
      [("binance", ExchangeType.CRYPTO, "BINANCE_API_KEY", "BINANCE_API_SECRET", 20),
       ("coinbase", ExchangeType.CRYPTO, "COINBASE_API_KEY", "COINBASE_API_SECRET", 15),
       ("alpaca", ExchangeType.STOCK, "ALPACA_API_KEY", "ALPACA_API_SECRET", 200)] := by
  rw [mkConfig_exchanges]
  simp [load_exchange_configs]

/-- Claim C10: the validation pass is frame-limited to the `enabled` flags:
every other field of every exchange is unchanged, the exchange list keeps its
length and order (hence its key set and insertion order), and every other
field of the Config is unchanged. -/
theorem C10_validate_frame (e : Env) (c : Config) :
    (validateConfig e c).1.env = c.env ∧
    (validateConfig e c).1.log_level = c.log_level ∧
    (validateConfig e c).1.data_dir = c.data_dir ∧
    (validateConfig e c).1.logs_dir = c.logs_dir ∧
    (validateConfig e c).1.models_dir = c.models_dir ∧
    (validateConfig e c).1.trading = c.trading ∧
    (validateConfig e c).1.ml = c.ml ∧
    (validateConfig e c).1.firebase_credentials_path = c.firebase_credentials_path ∧
    List.Forall₂ agreesExceptEnabled c.exchanges (validateConfig e c).1.exchanges := by
  refine ⟨rfl, rfl, rfl, rfl, rfl, rfl, rfl, rfl, ?_⟩
  show List.Forall₂ agreesExceptEnabled c.exchanges
    ((c.exchanges.map (validateExchange e)).map Prod.fst)
  rw [List.map_map, List.forall₂_map_right_iff, List.forall₂_same]
  intro x _
  exact ⟨(validateExchange_name e x).symm, (validateExchange_type e x).symm,
    (validateExchange_api_key_env e x).symm,
    (validateExchange_api_secret_env e x).symm,
    (validateExchange_rate_limit e x).symm, (validateExchange_timeout e x).symm⟩

end ACDN
